import Mathlib

/-!
# Verification of the Base44 multi-tenant analytics backend

A shallow embedding, in Lean 4, of the tenant-scoped ingestion-to-metric
pipeline of the Base44 backend (`src/backend/app`): the condition evaluator of
the alert engine, the alert acknowledge/resolve endpoints, the CSV connector
service, the KPI engine, the registration endpoint and the access guard.

Conventions of the embedding:
* Python `float` values are modelled as `ℚ` (the claims under scrutiny only
  involve exact decimal arithmetic, never rounding error of binary floats);
  concrete rationals are written with `mkRat` so that they evaluate inside the
  kernel;
* timestamps (`datetime`) are modelled as integers on an abstract timeline;
* the relational store is a record of lists of rows, one list per table, and
  each endpoint is a pure function from a store (plus request data) to a
  response paired with the successor store;
* calls into `random.uniform`, `sklearn`, `numpy`, the LLM mapping-suggestion
  service and `datetime.fromisoformat` are modelled as explicit oracle
  parameters: the surrounding control flow is translated from the source, only
  the library call itself is abstract;
* string scanning is implemented structurally over `List Char` so that every
  definition evaluates inside the kernel.
-/

namespace Base44

/-! ## Python string and float modelling -/

/-- Model of Python `str.strip()`: drop whitespace from both ends. -/
def pyStrip (l : List Char) : List Char :=
  ((l.dropWhile Char.isWhitespace).reverse.dropWhile Char.isWhitespace).reverse

/-- Model of Python `str.lower()` (the repository only lowercases ASCII). -/
def pyLower (s : String) : String :=
  String.mk (s.data.map Char.toLower)

/-- Model of Python `str.strip()` on a `String`. -/
def pyStripStr (s : String) : String :=
  String.mk (pyStrip s.data)

/-- The suffix following the first occurrence of `sep`, when `sep` occurs. -/
def dropThroughFirst (sep : List Char) : List Char → Option (List Char)
  | [] => none
  | c :: rest =>
    if sep.isPrefixOf (c :: rest) then some ((c :: rest).drop sep.length)
    else dropThroughFirst sep rest

/-- The characters preceding the first occurrence of `sep` (whole list if
`sep` does not occur). -/
def takeUntilFirst (sep : List Char) : List Char → List Char
  | [] => []
  | c :: rest => if sep.isPrefixOf (c :: rest) then [] else c :: takeUntilFirst sep rest

/-- Model of Python substring membership `sep in s`, for nonempty `sep`. -/
def containsSub (s sep : String) : Bool :=
  (dropThroughFirst sep.data s.data).isSome

/-- Model of Python `s.split(sep)[1]`: the segment between the first and
second occurrences of `sep` (IndexError — `none` — when `sep` is absent). -/
def splitPiece1 (s sep : String) : Option String :=
  (dropThroughFirst sep.data s.data).map fun r => String.mk (takeUntilFirst sep.data r)

/-- Model of Python `name.lower().replace(" ", "_")`, the KPI-name
normalization used by both engines. -/
def normalizeKpiName (name : String) : String :=
  String.mk ((pyLower name).data.map fun c => if c = ' ' then '_' else c)

/-- Digits of a numeral, most significant first, as a natural number. -/
def digitsVal (l : List Char) : ℕ :=
  l.foldl (fun a c => 10 * a + (c.toNat - 48)) 0

/-- Split off the longest leading run of decimal digits. -/
def takeDigits (l : List Char) : List Char × List Char :=
  (l.takeWhile (·.isDigit), l.dropWhile (·.isDigit))

/-- Parse an optional sign; returns `true` for a leading minus. -/
def takeSign : List Char → Bool × List Char
  | '-' :: rest => (true, rest)
  | '+' :: rest => (false, rest)
  | l => (false, l)

/-- Parse the exponent suffix (`e`/`E`, optional sign, at least one digit). -/
def parseExponent : List Char → Option ℤ
  | [] => some 0
  | c :: rest =>
    if c = 'e' ∨ c = 'E' then
      let (eneg, rest₁) := takeSign rest
      let (edigits, rest₂) := takeDigits rest₁
      if edigits = [] ∨ rest₂ ≠ [] then none
      else some (if eneg then -(digitsVal edigits : ℤ) else (digitsVal edigits : ℤ))
    else none

/-- Model of Python `float(s)` on decimal literals: optional sign, integer
part, optional fractional part, optional exponent, surrounded by optional
whitespace. (The special values `inf`/`nan` and underscore separators that
Python also accepts are not representable in `ℚ`; no string handled by the
repository uses them.) -/
def pyFloat? (s : String) : Option ℚ :=
  let cs := pyStrip s.data
  let (neg, cs₁) := takeSign cs
  let (intDigits, cs₂) := takeDigits cs₁
  let (fracDigits, cs₃) :=
    match cs₂ with
    | '.' :: rest => takeDigits rest
    | _ => ([], cs₂)
  if intDigits = [] ∧ fracDigits = [] then none
  else
    match parseExponent cs₃ with
    | none => none
    | some e =>
      let m : ℤ := (digitsVal (intDigits ++ fracDigits) : ℤ)
      let num : ℤ := (if neg then -m else m) * (10 : ℤ) ^ e.toNat
      let den : ℕ := (10 : ℕ) ^ (fracDigits.length + (-e).toNat)
      some (mkRat num den)

/-- Model of Python `round(x, 2)`. (Python rounds ties to even on the binary
representation; no claim under scrutiny depends on tie behaviour, so the
standard rounding of `ℚ` is used for the hundredths.) -/
def pyRound2 (x : ℚ) : ℚ :=
  mkRat (round (x * 100)) 100

/-! ## Data model

Row types for the tables touched by the claims. The SQLAlchemy models in
`app/models` lag behind the attribute sets actually used by the API layer
(`Alert` there lacks `acknowledged`/`rule_json`/`details`/`kpi_id`, which
`app/api/alerts.py` and the alert engine read and write); the embedding uses
the attribute set of the API layer, which is the code the claims cite. -/

structure TenantRow where
  id : ℤ
  name : String
  plan : String
deriving DecidableEq

structure UserRow where
  id : ℤ
  tenant_id : ℤ
  email : String
  role : String
  hashed_password : String
deriving DecidableEq

/-- One CSV cell row as an ordered dictionary (insertion-ordered keys). -/
abbrev CsvRow := List (String × String)

/-- `config_json` of a connector, as read by `_parse_csv_content` and
`validate_csv_file` (`config.get` with defaults). -/
structure CsvConfig where
  delimiter : Char := ','
  has_header : Bool := true
  required_columns : List String := []
deriving DecidableEq

structure ConnectorRow where
  id : ℤ
  tenant_id : ℤ
  ctype : String
  config : CsvConfig := {}
  last_sync_at : Option ℤ := none
deriving DecidableEq

structure RawIngestRow where
  id : ℤ := 0
  tenant_id : ℤ
  connector_id : ℤ
  data : List CsvRow
  record_count : ℕ
  file_name : Option String := none
  file_size : Option ℕ := none
deriving DecidableEq

/-- A normalized canonical field value (`_apply_transformation` output). -/
inductive PyValue where
  | vNone
  | vStr (s : String)
  | vNum (q : ℚ)
  | vBool (b : Bool)
deriving DecidableEq

structure NormalizedRecordRow where
  tenant_id : ℤ
  entity_type : String
  canonical : List (String × PyValue)
  raw_ingest_id : ℤ
  row_index : ℕ
  original : CsvRow
  created_at : ℤ := 0
deriving DecidableEq

structure KPIDefinitionRow where
  id : ℤ
  tenant_id : ℤ
  name : String
  vertical : String
deriving DecidableEq

structure Provenance where
  source_records : ℕ
  calculation_method : String
  data_quality : String := "high"
  formula : String := "mock"
  vertical : String := ""
deriving DecidableEq

structure KPIValueRow where
  id : ℤ := 0
  tenant_id : ℤ
  kpi_id : ℤ
  timestamp : ℤ
  value : ℚ
  provenance : Provenance
deriving DecidableEq

/-- A threshold rule from `MockAlertEngine._load_alert_rules`. -/
structure EngineRule where
  name : String
  kpi_name : String
  condition : String
  severity : String
  description : String
deriving DecidableEq

/-- The `rule_json` payload stored on an alert: either one of the engine's
threshold rules, or the literal anomaly dict built in `detect_anomalies`. -/
inductive StoredRule where
  | threshold (r : EngineRule)
  | anomaly (name rtype severity description : String)
deriving DecidableEq

/-- The `details` payload stored on an alert (only the keys the claims
touch are modelled individually). -/
structure AlertDetails where
  triggered_value : Option ℚ := none
  threshold : Option String := none
  kpi_name : Option String := none
  timestamp : Option ℤ := none
  anomaly_type : Option String := none
  anomaly_score : Option ℚ := none
deriving DecidableEq

structure AlertRow where
  id : ℤ := 0
  tenant_id : ℤ
  kpi_id : Option ℤ := none
  rule : StoredRule
  severity : String
  details : AlertDetails := {}
  triggered_at : ℤ := 0
  resolved_at : Option ℤ := none
  acknowledged : Bool := false
  acknowledged_by : Option ℤ := none
  acknowledged_at : Option ℤ := none
deriving DecidableEq

/-- The relational store: one list per table, plus the id sequences the
endpoints consume. -/
structure Store where
  tenants : List TenantRow := []
  users : List UserRow := []
  connectors : List ConnectorRow := []
  raw_ingests : List RawIngestRow := []
  normalized_records : List NormalizedRecordRow := []
  kpi_definitions : List KPIDefinitionRow := []
  kpi_values : List KPIValueRow := []
  alerts : List AlertRow := []
  next_tenant_id : ℤ := 1
  next_user_id : ℤ := 1
  next_raw_ingest_id : ℤ := 1
deriving DecidableEq

/-- HTTP-level outcome of an endpoint call, following the error taxonomy of
the API layer (`HTTPException` status codes). -/
inductive ApiResult (α : Type) where
  | ok (a : α)
  | badRequest (detail : String)
  | forbidden (detail : String)
  | notFound (detail : String)
  | serverError (detail : String)
deriving DecidableEq

/-! ## Access guard -/

/-- Modelled from the spec: `verify_tenant_access` lives in
`app/core/security.py`, which is not among the source files (only its callers
are). Spec §4.1 Access Guard: "given a caller's authenticated identity … and a
tenant identifier asserted by the request …, permit access only if they
match"; the repository's own `test_tenant_isolation` confirms that a valid
token used with a different tenant id is rejected, so no cross-tenant role
exists. -/
def verify_tenant_access (user : UserRow) (x_tenant_id : ℤ) : Bool :=
  user.tenant_id == x_tenant_id

/-! ## List helpers shared by the endpoint embeddings -/

/-- SQLAlchemy `query(…).filter(p).first()`. -/
def findFirst (p : α → Bool) (l : List α) : Option α :=
  l.find? p

/-- Mutating the single row `query(…).filter(p).first()` returned: update the
first row satisfying `p`, leave every other row unchanged. -/
def updateFirst (p : α → Bool) (f : α → α) : List α → List α
  | [] => []
  | a :: rest => if p a then f a :: rest else a :: updateFirst p f rest

/-! ## Alerts API (`app/api/alerts.py`)

`acknowledge_alert` (lines 70-108) and `resolve_alert` (lines 111-144):
tenant gate first, then the row lookup filtered by `Alert.id` and
`Alert.tenant_id`, then the mutation. Unacknowledging (`acknowledged=false`)
clears only the flag; the `acknowledged_by`/`acknowledged_at` columns are
written only when acknowledging. `resolve_alert` stamps `resolved_at`
unconditionally on the row it finds. -/

/-- Row predicate of both alert endpoints:
`Alert.id == alert_id, Alert.tenant_id == int(x_tenant_id)`. -/
def alertScope (alert_id x_tenant : ℤ) (a : AlertRow) : Bool :=
  a.id == alert_id && a.tenant_id == x_tenant

/-- The row mutation of `acknowledge_alert`: set the flag; the acknowledger
identity and timestamp are written only when acknowledging (lines 98-101). -/
def ackUpdate (user : UserRow) (ack : Bool) (now : ℤ) (a : AlertRow) : AlertRow :=
  if ack then
    { a with acknowledged := true, acknowledged_by := some user.id,
             acknowledged_at := some now }
  else
    { a with acknowledged := false }

/-- Embedding of `acknowledge_alert`. `now` models `datetime.utcnow()`. -/
def acknowledge_alert (db : Store) (user : UserRow) (x_tenant : ℤ)
    (alert_id : ℤ) (ack : Bool) (now : ℤ) : ApiResult String × Store :=
  if ¬ verify_tenant_access user x_tenant then
    (.forbidden "Access denied to this tenant", db)
  else
    match findFirst (alertScope alert_id x_tenant) db.alerts with
    | none => (.notFound "Alert not found", db)
    | some _ =>
      (.ok (if ack then "acknowledged" else "unacknowledged"),
       { db with
           alerts :=
             updateFirst (alertScope alert_id x_tenant) (ackUpdate user ack now)
               db.alerts })

/-- The row mutation of `resolve_alert`: stamp `resolved_at` (line 138). -/
def resolveUpdate (now : ℤ) (a : AlertRow) : AlertRow :=
  { a with resolved_at := some now }

/-- Embedding of `resolve_alert`. -/
def resolve_alert (db : Store) (user : UserRow) (x_tenant : ℤ)
    (alert_id : ℤ) (now : ℤ) : ApiResult String × Store :=
  if ¬ verify_tenant_access user x_tenant then
    (.forbidden "Access denied to this tenant", db)
  else
    match findFirst (alertScope alert_id x_tenant) db.alerts with
    | none => (.notFound "Alert not found", db)
    | some _ =>
      (.ok "resolved",
       { db with
           alerts :=
             updateFirst (alertScope alert_id x_tenant) (resolveUpdate now)
               db.alerts })

/-- Embedding of `list_alerts` (lines 33-67): the returned rows, before the
`triggered_at` ordering (the order is irrelevant to the claims). -/
def list_alerts (db : Store) (user : UserRow) (x_tenant : ℤ) :
    ApiResult (List AlertRow) :=
  if ¬ verify_tenant_access user x_tenant then
    .forbidden "Access denied to this tenant"
  else
    .ok (db.alerts.filter (fun a => a.tenant_id == x_tenant))

/-! ## Auth API (`app/api/auth.py`)

`register` (lines 44-88): reject when a user with the email exists, keeping
the store untouched; otherwise create the tenant, flush (obtaining its id),
create the owner user, commit. `hash` models `get_password_hash` from the
absent `app/core/security.py`. -/

structure RegisterOutcome where
  tenant_id : ℤ
  user_id : ℤ
deriving DecidableEq

/-- Embedding of `register`. -/
def register (db : Store) (tenantName plan email password role : String)
    (hash : String → String) : ApiResult RegisterOutcome × Store :=
  match findFirst (fun u => u.email == email) db.users with
  | some _ => (.badRequest "Email already registered", db)
  | none =>
    let t : TenantRow := { id := db.next_tenant_id, name := tenantName, plan := plan }
    let u : UserRow := { id := db.next_user_id, tenant_id := t.id, email := email,
                         role := role, hashed_password := hash password }
    (.ok { tenant_id := t.id, user_id := u.id },
     { db with tenants := db.tenants ++ [t], users := db.users ++ [u],
               next_tenant_id := db.next_tenant_id + 1,
               next_user_id := db.next_user_id + 1 })

/-! ## Alert engine (`app/services/alert_engine.py`) -/

/-- Embedding of `MockAlertEngine._evaluate_condition` (lines 181-197):
branch on which comparison operator occurs in the condition string (`<`
checked first, then `>`, then `==`), split the string on that operator, parse
piece 1 as a float, compare; every failure path (no operator, unparseable
right-hand side — the `except`/`else` arms) yields `False`. The `==` branch
compares with absolute tolerance `0.01`. -/
def evaluateCondition (value : ℚ) (condition : String) : Bool :=
  if containsSub condition "<" then
    match (splitPiece1 condition "<").bind pyFloat? with
    | some threshold => decide (value < threshold)
    | none => false
  else if containsSub condition ">" then
    match (splitPiece1 condition ">").bind pyFloat? with
    | some threshold => decide (value > threshold)
    | none => false
  else if containsSub condition "==" then
    match (splitPiece1 condition "==").bind pyFloat? with
    | some threshold => decide (|value - threshold| < mkRat 1 100)
    | none => false
  else
    false

/-- Embedding of `MockAlertEngine._load_alert_rules` (lines 24-117). -/
def alert_rules : List (String × List EngineRule) :=
  [("marketing_agency",
    [{ name := "Low Conversion Rate Alert", kpi_name := "lead_conversion_rate",
       condition := "value < 10", severity := "high",
       description := "Lead conversion rate dropped below 10%" },
     { name := "High Cost Per Lead Alert", kpi_name := "cost_per_lead",
       condition := "value > 50", severity := "medium",
       description := "Cost per lead exceeded $50" },
     { name := "Revenue Drop Alert", kpi_name := "monthly_revenue",
       condition := "value < 30000", severity := "high",
       description := "Monthly revenue dropped below $30,000" },
     { name := "Lead Quality Decline", kpi_name := "lead_quality_score",
       condition := "value < 6.0", severity := "medium",
       description := "Lead quality score below 6.0" }]),
   ("urgent_clinic",
    [{ name := "Long Wait Time Alert", kpi_name := "average_wait_time",
       condition := "value > 60", severity := "high",
       description := "Average wait time exceeded 60 minutes" },
     { name := "Low Patient Volume Alert", kpi_name := "patient_volume",
       condition := "value < 30", severity := "medium",
       description := "Daily patient volume below 30" },
     { name := "High No-Show Rate Alert", kpi_name := "no_show_rate",
       condition := "value > 20", severity := "medium",
       description := "No-show rate exceeded 20%" },
     { name := "Low Provider Utilization", kpi_name := "provider_utilization",
       condition := "value < 60", severity := "low",
       description := "Provider utilization below 60%" }]),
   ("local_police",
    [{ name := "High Incident Volume Alert", kpi_name := "incident_volume",
       condition := "value > 25", severity := "high",
       description := "Daily incident volume exceeded 25" },
     { name := "Slow Response Time Alert", kpi_name := "average_response_time",
       condition := "value > 10", severity := "high",
       description := "Average response time exceeded 10 minutes" },
     { name := "Low Resolution Rate Alert", kpi_name := "case_resolution_rate",
       condition := "value < 70", severity := "medium",
       description := "Case resolution rate below 70%" },
     { name := "Low Community Satisfaction", kpi_name := "community_satisfaction",
       condition := "value < 6.0", severity := "medium",
       description := "Community satisfaction below 6.0" }])]

/-- Python `dict.get(key, default)` over an association list. -/
def dictGet (l : List (String × α)) (key : String) (dflt : α) : α :=
  ((l.find? (fun kv => kv.1 == key)).map (fun kv => kv.2)).getD dflt

/-- Python `dict.get(key)` over an association list (`None` when absent). -/
def dictGet? (l : List (String × α)) (key : String) : Option α :=
  (l.find? (fun kv => kv.1 == key)).map (fun kv => kv.2)

/-- Embedding of `MockAlertEngine.check_kpi_alerts` (lines 119-142): for each
rule of the definition's vertical whose `kpi_name` equals the normalized
definition name, evaluate the condition against the incoming value and build
an alert stamped with the value's tenant id. -/
def check_kpi_alerts (kpi_value : KPIValueRow) (kd : KPIDefinitionRow) :
    List AlertRow :=
  let rules := dictGet alert_rules kd.vertical []
  rules.filterMap fun rule =>
    if rule.kpi_name == normalizeKpiName kd.name then
      if evaluateCondition kpi_value.value rule.condition then
        some { tenant_id := kpi_value.tenant_id, kpi_id := some kd.id,
               rule := .threshold rule, severity := rule.severity,
               details := { triggered_value := some kpi_value.value,
                            threshold := some rule.condition,
                            kpi_name := some kd.name,
                            timestamp := some kpi_value.timestamp } }
      else none
    else none

/-- One flagged point produced by the anomaly detector. -/
structure AnomalyPoint where
  atype : String
  score : ℚ
  value : ℚ
  expected_lo : ℚ
  expected_hi : ℚ
  timestamp : ℤ
deriving DecidableEq

/-- The statistical core of one detection method. `MockAnomalyDetector`
delegates the numerics to `numpy`/`sklearn` (irrational standard deviations,
`IsolationForest`), which a rational embedding cannot reproduce; each method
is an oracle, while the length guards and the concatenation around them are
translated from the source. -/
abbrev DetectorMethod := List ℚ → List ℤ → List AnomalyPoint

/-- Embedding of `MockAnomalyDetector.detect_anomalies` (lines 230-249):
below 10 points, return no anomalies without consulting any method;
otherwise concatenate the three methods' findings. -/
def detector_detect_anomalies (m₁ m₂ m₃ : DetectorMethod)
    (values : List ℚ) (timestamps : List ℤ) : List AnomalyPoint :=
  if values.length < 10 then []
  else m₁ values timestamps ++ m₂ values timestamps ++ m₃ values timestamps

/-- Embedding of `MockAlertEngine.detect_anomalies` (lines 144-179): below 10
KPI values, return no alerts; otherwise run the detector over the value and
timestamp series and wrap each flagged point in an anomaly alert stamped with
the definition's tenant id. -/
def engine_detect_anomalies (detector : DetectorMethod)
    (kpi_values : List KPIValueRow) (kd : KPIDefinitionRow) : List AlertRow :=
  if kpi_values.length < 10 then []
  else
    let values := kpi_values.map (fun kv => kv.value)
    let timestamps := kpi_values.map (fun kv => kv.timestamp)
    (detector values timestamps).map fun a =>
      { tenant_id := kd.tenant_id, kpi_id := some kd.id,
        rule := .anomaly "Anomaly Detected" "anomaly" "medium"
          ("Anomaly detected in " ++ kd.name),
        severity := "medium",
        details := { anomaly_type := some a.atype, anomaly_score := some a.score,
                     triggered_value := some a.value, timestamp := some a.timestamp } }

/-! ## KPI engine (`app/services/kpi_engine.py`) -/

/-- A formula entry of `MockKPIEngine._load_kpi_formulas`. -/
structure FormulaConfig where
  formula : String
  description : String
  unit : String
  target : ℚ
deriving DecidableEq

/-- Embedding of `MockKPIEngine._load_kpi_formulas` (lines 21-120). -/
def kpi_formulas : List (String × List (String × FormulaConfig)) :=
  [("marketing_agency",
    [("lead_conversion_rate",
      { formula := "converted_leads / total_leads * 100",
        description := "Percentage of leads that convert to customers",
        unit := "percentage", target := 15 }),
     ("cost_per_lead",
      { formula := "total_spend / total_leads",
        description := "Average cost to acquire a lead",
        unit := "currency", target := 25 }),
     ("lead_quality_score",
      { formula := "sum(lead_scores) / count(leads)",
        description := "Average quality score of leads",
        unit := "score", target := mkRat 15 2 }),
     ("campaign_roi",
      { formula := "(revenue - cost) / cost * 100",
        description := "Return on investment for campaigns",
        unit := "percentage", target := 300 }),
     ("monthly_revenue",
      { formula := "sum(converted_leads * average_deal_size)",
        description := "Total monthly revenue from conversions",
        unit := "currency", target := 50000 })]),
   ("urgent_clinic",
    [("average_wait_time",
      { formula := "sum(wait_time_minutes) / count(visits)",
        description := "Average time patients wait before being seen",
        unit := "minutes", target := 30 }),
     ("patient_volume",
      { formula := "count(visits) where date(visit_date) = today",
        description := "Number of patients seen per day",
        unit := "count", target := 50 }),
     ("revenue_per_visit",
      { formula := "sum(total_cost) / count(visits)",
        description := "Average revenue generated per visit",
        unit := "currency", target := 150 }),
     ("provider_utilization",
      { formula := "sum(treatment_time) / sum(shift_time) * 100",
        description := "Percentage of time providers are seeing patients",
        unit := "percentage", target := 80 }),
     ("no_show_rate",
      { formula := "count(no_shows) / count(scheduled_visits) * 100",
        description := "Percentage of scheduled visits that are no-shows",
        unit := "percentage", target := 10 })]),
   ("local_police",
    [("incident_volume",
      { formula := "count(incidents) where date(incident_date) = today",
        description := "Number of incidents reported per day",
        unit := "count", target := 15 }),
     ("average_response_time",
      { formula := "sum(response_time_minutes) / count(incidents)",
        description := "Average time to respond to incidents",
        unit := "minutes", target := 5 }),
     ("case_resolution_rate",
      { formula := "count(resolved_cases) / count(total_cases) * 100",
        description := "Percentage of cases that are resolved",
        unit := "percentage", target := 85 }),
     ("officer_efficiency",
      { formula := "count(incidents_handled) / count(active_officers)",
        description := "Average incidents handled per officer per day",
        unit := "count", target := 3 }),
     ("community_satisfaction",
      { formula := "sum(satisfaction_scores) / count(surveys)",
        description := "Average community satisfaction score",
        unit := "score", target := 8 })])]

/-- Embedding of the `base_values` table inside
`MockKPIEngine._generate_mock_kpi_value` (lines 160-182). -/
def kpi_base_values : List (String × List (String × ℚ)) :=
  [("marketing_agency",
    [("lead_conversion_rate", mkRat 25 2), ("cost_per_lead", mkRat 57 2),
     ("lead_quality_score", mkRat 36 5), ("campaign_roi", 285),
     ("monthly_revenue", 45000)]),
   ("urgent_clinic",
    [("average_wait_time", 35), ("patient_volume", 48),
     ("revenue_per_visit", 145), ("provider_utilization", 78),
     ("no_show_rate", 12)]),
   ("local_police",
    [("incident_volume", 18), ("average_response_time", mkRat 13 2),
     ("case_resolution_rate", 82), ("officer_efficiency", mkRat 14 5),
     ("community_satisfaction", mkRat 79 10)])]

/-- Embedding of `MockKPIEngine._generate_mock_kpi_value` (lines 156-188).
`variation` is the draw of `random.uniform(-0.2, 0.2)`. -/
def generate_mock_kpi_value (kpi_name vertical : String) (variation : ℚ) : ℚ :=
  let base := dictGet (dictGet kpi_base_values vertical []) kpi_name 50
  pyRound2 (base * (1 + variation))

/-- Embedding of `MockKPIEngine._calculate_formula_value` (lines 190-228):
the branch is chosen by substring tests on the lowercased formula text and
yields a perturbed hard-coded base; records are never consulted.
`variation` is the branch's `random.uniform` draw. -/
def calculate_formula_value (fc : FormulaConfig)
    (_records : List NormalizedRecordRow) (vertical : String)
    (variation : ℚ) : ℚ :=
  let f := pyLower fc.formula
  if containsSub f "conversion" then pyRound2 (mkRat 25 2 * (1 + variation))
  else if containsSub f "cost" then pyRound2 (mkRat 57 2 * (1 + variation))
  else if containsSub f "wait" then pyRound2 (35 * (1 + variation))
  else if containsSub f "volume" then pyRound2 (50 * (1 + variation))
  else if containsSub f "roi" then pyRound2 (285 * (1 + variation))
  else generate_mock_kpi_value "default" vertical variation

/-- Embedding of `MockKPIEngine.calculate_kpi` (lines 122-154): look up the
formula for (vertical, normalized name); compute the value by the formula
branch or the mock fallback; stamp provenance with the count of all records
passed in and the calculation path. `start_date` is accepted and never used,
exactly as in the source; `now` models `datetime.utcnow()`. -/
def calculate_kpi (kd : KPIDefinitionRow) (records : List NormalizedRecordRow)
    (start_date end_date : Option ℤ) (now : ℤ) (variation : ℚ) : KPIValueRow :=
  let kpi_name := normalizeKpiName kd.name
  let formula_config := dictGet? (dictGet kpi_formulas kd.vertical []) kpi_name
  let mock_value :=
    match formula_config with
    | none => generate_mock_kpi_value kpi_name kd.vertical variation
    | some fc => calculate_formula_value fc records kd.vertical variation
  { tenant_id := kd.tenant_id, kpi_id := kd.id,
    timestamp := end_date.getD now,
    value := mock_value,
    provenance := { source_records := records.length,
                    calculation_method :=
                      if formula_config.isSome then "formula_based"
                      else "mock_generated",
                    data_quality := "high",
                    formula := (formula_config.map (fun fc => fc.formula)).getD "mock",
                    vertical := kd.vertical } }

/-! ## CSV connector service (`app/services/csv_connector.py`)

The upload payload is modelled by what the service observes of the Python
`bytes` object: its length (`len(file_content)`) and the result of
`file_content.decode(encoding)` (`none` models a `UnicodeDecodeError`). -/

structure FileBytes where
  len : ℕ
  decoded : Option String
deriving DecidableEq

/-- Split a character list at every occurrence of a single character. -/
def splitOnChar (c : Char) : List Char → List (List Char)
  | [] => [[]]
  | x :: rest =>
    match splitOnChar c rest with
    | [] => []
    | p :: ps => if x = c then [] :: p :: ps else (x :: p) :: ps

/-- Split text into lines the way the `csv` module's universal-newline
reader does for the delimiters in use: split on a newline, dropping a
carriage return left at the end of a line. -/
def splitLines (text : String) : List (List Char) :=
  (splitOnChar '\n' text.data).map fun l =>
    match l.reverse with
    | '\r' :: r => r.reverse
    | _ => l

/-- Zip header fields with the cells of one row the way `csv.DictReader`
does: surplus cells fall under the `None` key (which the service's clean-up
then drops), missing cells are read back as empty. -/
def zipHeader : List String → List String → CsvRow
  | [], _ => []
  | k :: ks, [] => (k, "") :: zipHeader ks []
  | k :: ks, v :: vs => (k, v) :: zipHeader ks vs

/-- The `csv.DictReader` loop of `_parse_csv_content` (lines 66-85) together
with its row clean-up: first non-blank line is the header; every later
non-blank line becomes a dict; keys that are empty after the header are
skipped, kept keys and values are stripped; rows that clean to nothing are
dropped. (Quoted cells, which no claim touches, are not modelled.) -/
def dictReaderRows (text : String) (delimiter : Char) : List CsvRow :=
  match (splitLines text).filter (fun l => l ≠ []) with
  | [] => []
  | header :: rows =>
    let fields := (splitOnChar delimiter header).map String.mk
    rows.foldr
      (fun r acc =>
        let cells := (splitOnChar delimiter r).map String.mk
        let cleaned := (zipHeader fields cells).filterMap fun kv =>
          if kv.1 ≠ "" then some (pyStripStr kv.1, pyStripStr kv.2) else none
        if cleaned ≠ [] then cleaned :: acc else acc)
      []

/-- Embedding of `_parse_csv_content` (lines 54-88): decode under the
connector's declared encoding, then run the reader with the declared
delimiter; a decoding failure raises, re-thrown as "Failed to parse CSV". -/
def parse_csv_content (content : FileBytes) (config : CsvConfig) :
    Except String (List CsvRow) :=
  match content.decoded with
  | none => .error "Failed to parse CSV: decode error"
  | some text => .ok (dictReaderRows text config.delimiter)

/-- Mapping suggestions returned by the LLM collaborator (out of core scope;
only carried through). -/
structure MappingSuggestions where
  suggested_mappings : List (String × String × ℚ) := []
  confidence_threshold : ℚ := mkRat 4 5
deriving DecidableEq

/-- The oracle modelling `llm_service.suggest_field_mapping`. -/
abbrev LlmOracle := String → String → CsvRow → MappingSuggestions

/-- Embedding of `_detect_vertical` (lines 133-152). `sampleText` models
`str(sample_data)`; the indicator words never straddle the dict
rendering's punctuation, so the row text suffices. -/
def detect_vertical (sample : CsvRow) : String :=
  let sampleText := pyLower (String.join (sample.map fun kv => kv.1 ++ " " ++ kv.2 ++ " "))
  if ["email", "lead", "campaign", "conversion", "source"].any
      (fun w => containsSub sampleText w) then "marketing_agency"
  else if ["patient", "visit", "diagnosis", "insurance", "provider"].any
      (fun w => containsSub sampleText w) then "urgent_clinic"
  else if ["incident", "officer", "suspect", "case", "crime"].any
      (fun w => containsSub sampleText w) then "local_police"
  else "marketing_agency"

/-- Embedding of `_generate_mapping_suggestions` (lines 111-131). -/
def generate_mapping_suggestions (llm : LlmOracle) (csv_data : List CsvRow) :
    MappingSuggestions :=
  match csv_data with
  | [] => { suggested_mappings := [], confidence_threshold := mkRat 4 5 }
  | sample :: _ => llm "csv" (detect_vertical sample) sample

/-- Result dict of `process_csv_upload`. (`raw_ingest_id` is omitted: the
service builds its `RawIngest` object without a session, so the id the
Python code reports is always `None`.) -/
structure ProcessResult where
  success : Bool
  records_processed : ℕ := 0
  mapping_suggestions : MappingSuggestions := {}
  sample_data : List CsvRow := []
  error : Option String := none
deriving DecidableEq

/-- Embedding of `process_csv_upload` (lines 23-52): parse, build the raw
record (never persisted by the service itself), produce suggestions; any
exception is caught and returned as `success=False`. -/
def process_csv_upload (llm : LlmOracle) (content : FileBytes)
    (connector : ConnectorRow) : ProcessResult :=
  match parse_csv_content content connector.config with
  | .error e => { success := false, error := some e }
  | .ok csv_data =>
    { success := true, records_processed := csv_data.length,
      mapping_suggestions := generate_mapping_suggestions llm csv_data,
      sample_data := csv_data.take 5 }

/-- Outcome of `validate_csv_file`. -/
inductive ValidationOutcome where
  | invalid (error : String)
  | valid (record_count : ℕ) (columns : List String) (sample : CsvRow)
deriving DecidableEq

/-- Embedding of `validate_csv_file` (lines 257-302). `max_file_size` is the
instance attribute set in `CSVConnectorService.__init__`; the module-level
instance fixes it to `csv_max_file_size`. No code path in the repository
calls this function. -/
def validate_csv_file (max_file_size : ℕ) (content : FileBytes)
    (config : CsvConfig) : ValidationOutcome :=
  if content.len > max_file_size then
    .invalid "File too large"
  else
    match parse_csv_content content config with
    | .error e => .invalid ("CSV validation failed: " ++ e)
    | .ok [] => .invalid "No data found in CSV file"
    | .ok (r :: rs) =>
      let missing := config.required_columns.filter
        (fun col => ¬ (dictGet? r col).isSome)
      if missing ≠ [] then .invalid "Missing required columns"
      else .valid (r :: rs).length (r.map fun kv => kv.1) r

/-- `self.max_file_size` of the module-level `csv_connector` instance:
`10 * 1024 * 1024` bytes. -/
def csv_max_file_size : ℕ := 10 * 1024 * 1024

/-- Oracle modelling `datetime.fromisoformat(value.replace('Z',
'+00:00')).isoformat()`: `none` models the `ValueError` of an unparseable
date, `some s` the round-tripped ISO string. -/
abbrev DateOracle := String → Option String

/-- Python dict assignment `d[k] = v` on an insertion-ordered
association list. -/
def dictSet (l : List (String × α)) (key : String) (v : α) : List (String × α) :=
  if (l.find? (fun kv => kv.1 == key)).isSome then
    l.map fun kv => if kv.1 == key then (kv.1, v) else kv
  else l ++ [(key, v)]

/-- `value.replace('$', '').replace(',', '')` of the numeric branch. -/
def stripCurrency (value : String) : String :=
  String.mk (value.data.filter fun c => c ≠ '$' ∧ c ≠ ',')

/-- Embedding of `_apply_transformation` (lines 201-229): empty values become
`None`; email/source lowercase-strip; date/time targets try the ISO
round-trip and keep the raw string on failure; numeric targets try `float`
after dropping currency characters and keep the raw string on failure;
boolean targets compare the lowercased value against the truthy set;
anything else passes through unchanged. -/
def apply_transformation (pd : DateOracle) (value : String)
    (target_field : String) : PyValue :=
  if value = "" then .vNone
  else if target_field = "email" ∨ target_field = "source" then
    .vStr (pyStripStr (pyLower value))
  else if containsSub target_field "date" ∨ containsSub target_field "time" then
    match pd value with
    | some iso => .vStr iso
    | none => .vStr value
  else if target_field = "value" ∨ target_field = "cost" ∨
      target_field = "budget" ∨ target_field = "amount" then
    match pyFloat? (stripCurrency value) with
    | some q => .vNum q
    | none => .vStr value
  else if target_field = "active" ∨ target_field = "enabled" ∨
      target_field = "converted" then
    .vBool (["true", "1", "yes", "active", "converted"].any
      (fun w => pyLower value == w))
  else .vStr value

/-- Embedding of `_apply_field_mappings` (lines 186-199). -/
def apply_field_mappings (pd : DateOracle) (row : CsvRow)
    (mappings : List (String × String)) : List (String × PyValue) :=
  mappings.foldl
    (fun acc m =>
      match dictGet? row m.1 with
      | some value => dictSet acc m.2 (apply_transformation pd value m.2)
      | none => acc)
    []

/-- Embedding of `_determine_entity_type` (lines 231-255). -/
def determine_entity_type (nd : List (String × PyValue)) : String :=
  let has := fun f => (dictGet? nd f).isSome
  if has "email" ∨ has "lead_id" ∨ has "conversion" then "lead"
  else if has "campaign_id" ∨ has "budget" ∨ has "platform" then "campaign"
  else if has "patient_id" ∨ has "first_name" ∨ has "last_name" then "patient"
  else if has "visit_id" ∨ has "chief_complaint" ∨ has "diagnosis" then "visit"
  else if has "incident_id" ∨ has "incident_type" ∨ has "location" then "incident"
  else "record"

/-- Embedding of `normalize_csv_data` (lines 154-184): one normalized record
per raw row, each carrying the raw-ingest back-reference and the row index. -/
def normalize_csv_data (pd : DateOracle) (raw : RawIngestRow)
    (mappings : List (String × String)) (tenant_id : ℤ) :
    List NormalizedRecordRow :=
  (List.range raw.data.length).zip raw.data |>.map fun ir =>
    let nd := apply_field_mappings pd ir.2 mappings
    { tenant_id := tenant_id, entity_type := determine_entity_type nd,
      canonical := nd, raw_ingest_id := raw.id, row_index := ir.1,
      original := ir.2 }

/-! ## Connectors API (`app/api/connectors.py`) and live connectors -/

structure SyncResponse where
  success : Bool
  records_ingested : ℕ
  message : String
deriving DecidableEq

/-- Embedding of `LiveConnectorService.sync_connector`
(`app/services/live_connectors.py`, lines 399-425) together with the
per-endpoint `sync_*` helpers it calls: every helper builds one `RawIngest`
stamped with the tenant id and connector id it was given, around a mock
payload. `endpointPayloads` abstracts the per-endpoint mock datasets (three
for hubspot, four for google_ads); an empty list models an unrecognized
type, for which the service returns no ingests. -/
def live_sync_connector (endpointPayloads : List (List CsvRow))
    (connector : ConnectorRow) (tenant_id : ℤ) : List RawIngestRow :=
  endpointPayloads.map fun d =>
    { tenant_id := tenant_id, connector_id := connector.id,
      data := d, record_count := d.length }

/-- Embedding of `create_connector` (lines 45-79). -/
def create_connector (db : Store) (user : UserRow) (x_tenant : ℤ)
    (ctype : String) (config : CsvConfig) (cid : ℤ) :
    ApiResult ConnectorRow × Store :=
  if ¬ verify_tenant_access user x_tenant then
    (.forbidden "Access denied to this tenant", db)
  else
    let row : ConnectorRow := { id := cid, tenant_id := x_tenant,
                                ctype := ctype, config := config }
    (.ok row, { db with connectors := db.connectors ++ [row] })

/-- Embedding of `list_connectors` (lines 82-109). -/
def list_connectors (db : Store) (user : UserRow) (x_tenant : ℤ) :
    ApiResult (List ConnectorRow) :=
  if ¬ verify_tenant_access user x_tenant then
    .forbidden "Access denied to this tenant"
  else
    .ok (db.connectors.filter (fun c => c.tenant_id == x_tenant))

/-- Embedding of `sync_connector` (lines 112-176): tenant gate, connector
lookup scoped by id and tenant, then the type dispatch. Only `hubspot` and
`google_ads` ingest rows; the raw ingests are committed before the totals
are reported. -/
def sync_connector (db : Store) (user : UserRow) (x_tenant : ℤ)
    (connector_id : ℤ) (endpointPayloads : List (List CsvRow)) :
    ApiResult SyncResponse × Store :=
  if ¬ verify_tenant_access user x_tenant then
    (.forbidden "Access denied to this tenant", db)
  else
    match findFirst (fun c => c.id == connector_id && c.tenant_id == x_tenant)
        db.connectors with
    | none => (.notFound "Connector not found", db)
    | some connector =>
      if connector.ctype = "csv" then
        (.ok { success := true, records_ingested := 0,
               message := "CSV sync requires file upload" }, db)
      else if connector.ctype = "hubspot" ∨ connector.ctype = "google_ads" then
        let ingests := live_sync_connector endpointPayloads connector x_tenant
        let total := (ingests.map fun ri => ri.data.length).sum
        (.ok { success := true, records_ingested := total,
               message := "Sync completed" },
         { db with raw_ingests := db.raw_ingests ++ ingests })
      else
        (.ok { success := false, records_ingested := 0,
               message := "Unsupported connector type" }, db)

structure UploadResponse where
  message : String
  mapping_suggestions : MappingSuggestions
  raw_ingest_id : ℤ
deriving DecidableEq

/-- Embedding of `upload_csv` (lines 179-254): tenant gate, connector lookup
scoped by id and tenant, csv-type check, then `process_csv_upload`; on
success one `RawIngest` holding the sample data plus file metadata is
committed. On failure the endpoint raises its 400 inside the `try:` block,
so the `except Exception` arm (line 250) catches that very `HTTPException`
and re-raises it as a 500 whose detail wraps the original error in
"CSV upload failed: …" — the caller never sees the 400. Note that neither
this endpoint nor the service consults `validate_csv_file` or
`max_file_size`. -/
def upload_csv (db : Store) (user : UserRow) (x_tenant : ℤ)
    (connector_id : ℤ) (llm : LlmOracle) (file : FileBytes)
    (file_name : String) : ApiResult UploadResponse × Store :=
  if ¬ verify_tenant_access user x_tenant then
    (.forbidden "Access denied to this tenant", db)
  else
    match findFirst (fun c => c.id == connector_id && c.tenant_id == x_tenant)
        db.connectors with
    | none => (.notFound "Connector not found", db)
    | some connector =>
      if connector.ctype ≠ "csv" then
        (.badRequest "Connector is not a CSV connector", db)
      else
        let result := process_csv_upload llm file connector
        if result.success then
          let raw : RawIngestRow :=
            { id := db.next_raw_ingest_id, tenant_id := x_tenant,
              connector_id := connector_id, data := result.sample_data,
              record_count := result.records_processed,
              file_name := some file_name, file_size := some file.len }
          (.ok { message := "CSV uploaded successfully",
                 mapping_suggestions := result.mapping_suggestions,
                 raw_ingest_id := raw.id },
           { db with raw_ingests := db.raw_ingests ++ [raw],
                     next_raw_ingest_id := db.next_raw_ingest_id + 1 })
        else
          (.serverError ("CSV upload failed: " ++ result.error.getD ""), db)

/-! ## Dashboard API (`app/api/dashboard.py`)

`get_dashboard` (lines 29-130) builds one KPI tile per KPI definition of the
tenant. The latest-value query behind each tile —
`db.query(KPIValue).filter(KPIValue.kpi_id == kpi.id).order_by(
KPIValue.timestamp.desc()).first()` — filters by `kpi_id` only: it carries no
`tenant_id` condition, unlike the alert and task queries in the same
endpoint. -/

/-- SQLAlchemy `order_by(timestamp.desc()).first()` over a filtered list:
the row with the greatest timestamp (first such row on ties). -/
def latestByTimestamp : List KPIValueRow → Option KPIValueRow
  | [] => none
  | a :: rest =>
    match latestByTimestamp rest with
    | none => some a
    | some b => if b.timestamp > a.timestamp then some b else some a

/-- The latest-value query of one dashboard KPI tile, exactly as issued by
`get_dashboard`: filtered by `kpi_id` alone. -/
def dashboard_latest_kpi_value (kpi_values : List KPIValueRow) (kpi_id : ℤ) :
    Option KPIValueRow :=
  latestByTimestamp (kpi_values.filter (fun kv => kv.kpi_id == kpi_id))

/-- The `KPIValue` rows `get_dashboard` reads into the tenant's KPI tiles:
one latest value per KPI definition of the tenant. -/
def dashboard_kpi_rows_read (db : Store) (tenant_id : ℤ) : List KPIValueRow :=
  (db.kpi_definitions.filter (fun k => k.tenant_id == tenant_id)).filterMap
    fun k => dashboard_latest_kpi_value db.kpi_values k.id

/-- A window filter in the sense of spec §4.4 — "records falling inside
`[start, end)`" — stated over the record timestamps. (This is the
specification's notion; `calculate_kpi` is compared against it.) -/
def records_in_window (records : List NormalizedRecordRow) (s e : ℤ) :
    List NormalizedRecordRow :=
  records.filter fun r => decide (s ≤ r.created_at) && decide (r.created_at < e)

/-! ## Concrete fixtures used by witnesses and counterexamples -/

/-- A KPI definition whose (vertical, normalized name) pair has no entry in
`kpi_formulas` (the vertical "retail" has no formula table). -/
def retailKpi : KPIDefinitionRow :=
  { id := 1, tenant_id := 1, name := "Lead Conversion Rate", vertical := "retail" }

/-- A normalized record timestamped outside the window `[0, 10)`. -/
def lateRecord : NormalizedRecordRow :=
  { tenant_id := 1, entity_type := "record", canonical := [], raw_ingest_id := 1,
    row_index := 0, original := [], created_at := 100 }

/-- A KPI value row belonging to tenant 2 but attached to KPI 7. -/
def crossTenantValue : KPIValueRow :=
  { tenant_id := 2, kpi_id := 7, timestamp := 0, value := 99,
    provenance := { source_records := 0, calculation_method := "mock_generated" } }

/-- KPI definition 7, owned by tenant 1. -/
def tenantOneKpi : KPIDefinitionRow :=
  { id := 7, tenant_id := 1, name := "Lead Conversion Rate",
    vertical := "marketing_agency" }

/-- A store where tenant 1 owns KPI 7 while the only value row for KPI 7
belongs to tenant 2. -/
def dashboardStore : Store :=
  { kpi_definitions := [tenantOneKpi], kpi_values := [crossTenantValue] }

/-- An owner user of tenant 1. -/
def tenantOneUser : UserRow :=
  { id := 1, tenant_id := 1, email := "owner@one.test", role := "owner",
    hashed_password := "h" }

/-- An active, unacknowledged alert of tenant 1. -/
def activeAlert : AlertRow :=
  { id := 1, tenant_id := 1,
    rule := .anomaly "Anomaly Detected" "anomaly" "medium" "demo",
    severity := "medium" }

/-- A store holding only `activeAlert`. -/
def alertStore : Store := { alerts := [activeAlert] }

/-- A store holding an alert and a connector that belong to tenant 2 — the
"addressed resource exists" side of the tenant-mismatch hyperproperty. -/
def tenantTwoStore : Store :=
  { alerts := [{ activeAlert with tenant_id := 2 }],
    connectors := [{ id := 1, tenant_id := 2, ctype := "hubspot" }] }

/-- A store already containing a registered user. -/
def registeredStore : Store :=
  { tenants := [{ id := 1, name := "Acme", plan := "starter" }],
    users := [{ tenantOneUser with email := "dup@acme.test" }],
    next_tenant_id := 2, next_user_id := 2 }

/-- A CSV connector of tenant 1, with id 3. -/
def csvConnector : ConnectorRow := { id := 3, tenant_id := 1, ctype := "csv" }

/-- A store holding only `csvConnector`. -/
def csvStore : Store := { connectors := [csvConnector] }

/-- An 11-byte CSV payload (a header line and one row) against which a
10-byte limit is over-run while parsing succeeds. -/
def oversizePayload : FileBytes := { len := 11, decoded := some "email\na@b.c" }

/-- A payload whose bytes do not decode under the declared encoding. -/
def undecodablePayload : FileBytes := { len := 4, decoded := none }

/-- An LLM oracle returning no suggestions. -/
def noSuggestions : LlmOracle := fun _ _ _ => {}

/-! ## Helper lemmas -/

/-- `updateFirst` commutes with `find?` when the update does not disturb the
predicate: the found row is the updated image of the row found before. -/
theorem find?_updateFirst (p : α → Bool) (f : α → α)
    (hf : ∀ a, p (f a) = p a) (l : List α) :
    (updateFirst p f l).find? p = (l.find? p).map f := by
  induction l with
  | nil => rfl
  | cons a rest ih =>
    by_cases h : p a
    · simp [updateFirst, h, List.find?_cons, hf a]
    · simp [updateFirst, h, List.find?_cons, ih]

/-- `find?_updateFirst` phrased through `findFirst`. -/
theorem findFirst_updateFirst (p : α → Bool) (f : α → α)
    (hf : ∀ a, p (f a) = p a) (l : List α) :
    findFirst p (updateFirst p f l) = (findFirst p l).map f :=
  find?_updateFirst p f hf l

/-- `ackUpdate` does not disturb the id or the tenant of a row. -/
theorem alertScope_ackUpdate (i t : ℤ) (user : UserRow) (ack : Bool) (now : ℤ)
    (x : AlertRow) : alertScope i t (ackUpdate user ack now x) = alertScope i t x := by
  cases ack <;> rfl

/-- `resolveUpdate` does not disturb the id or the tenant of a row. -/
theorem alertScope_resolveUpdate (i t : ℤ) (now : ℤ) (x : AlertRow) :
    alertScope i t (resolveUpdate now x) = alertScope i t x := rfl

/-- When the gate passes and the row exists, `acknowledge_alert` succeeds
and its successor store updates exactly the scoped row. -/
theorem acknowledge_alert_found (db : Store) (user : UserRow)
    (t i : ℤ) (ack : Bool) (now : ℤ) (a : AlertRow)
    (hv : verify_tenant_access user t = true)
    (hfound : findFirst (alertScope i t) db.alerts = some a) :
    (acknowledge_alert db user t i ack now).2.alerts
      = updateFirst (alertScope i t) (ackUpdate user ack now) db.alerts := by
  simp [acknowledge_alert, hv, hfound]

/-- When the gate passes and the row exists, `resolve_alert` returns 200 and
its successor store updates exactly the scoped row. -/
theorem resolve_alert_found (db : Store) (user : UserRow) (t i now : ℤ)
    (a : AlertRow)
    (hv : verify_tenant_access user t = true)
    (hfound : findFirst (alertScope i t) db.alerts = some a) :
    (resolve_alert db user t i now).1 = .ok "resolved" ∧
    (resolve_alert db user t i now).2.alerts
      = updateFirst (alertScope i t) (resolveUpdate now) db.alerts := by
  constructor <;> simp [resolve_alert, hv, hfound]

/-! ## Claim theorems -/

/-- C3 (counterexample): the claim says the evaluator "returns true exactly
when the comparison holds", but the `==` branch matches within an absolute
tolerance of `0.01`: the condition "value == 10" evaluates to true for the
value 10.005, although 10.005 is not equal to 10. -/
theorem eq_condition_tolerance_counterexample :
    evaluateCondition (mkRat 2001 200) "value == 10" = true ∧
    mkRat 2001 200 ≠ (10 : ℚ) := by
  constructor
  · have hlt : containsSub "value == 10" "<" = false := by decide
    have hgt : containsSub "value == 10" ">" = false := by decide
    have heq : containsSub "value == 10" "==" = true := by decide
    have hb : (splitPiece1 "value == 10" "==").bind pyFloat? = some 10 := by decide
    simp only [evaluateCondition, hlt, hgt, heq, hb, Bool.false_eq_true, if_false,
      if_true, decide_eq_true_eq]
    norm_num [Rat.mkRat_eq_div, abs_lt]
  · decide

/-- C3 (amended): the evaluator splits the condition on the first recognized
operator (`<`, then `>`, then `==`) and parses the right-hand side as a
float; for `<` and `>` it returns true exactly when the comparison holds; for
`==` it returns true exactly when the value is within 0.01 of the threshold;
malformed conditions (no recognized operator, or an unparseable right-hand
side) never match; "value < 10" is true at 8 and false at 12. -/
theorem evaluate_condition_branches (value t : ℚ) (cond : String) :
    (containsSub cond "<" = true →
      ((splitPiece1 cond "<").bind pyFloat? = some t →
        evaluateCondition value cond = decide (value < t)) ∧
      ((splitPiece1 cond "<").bind pyFloat? = none →
        evaluateCondition value cond = false)) ∧
    (containsSub cond "<" = false → containsSub cond ">" = true →
      ((splitPiece1 cond ">").bind pyFloat? = some t →
        evaluateCondition value cond = decide (value > t)) ∧
      ((splitPiece1 cond ">").bind pyFloat? = none →
        evaluateCondition value cond = false)) ∧
    (containsSub cond "<" = false → containsSub cond ">" = false →
      containsSub cond "==" = true →
      ((splitPiece1 cond "==").bind pyFloat? = some t →
        evaluateCondition value cond = decide (|value - t| < mkRat 1 100)) ∧
      ((splitPiece1 cond "==").bind pyFloat? = none →
        evaluateCondition value cond = false)) ∧
    (containsSub cond "<" = false → containsSub cond ">" = false →
      containsSub cond "==" = false → evaluateCondition value cond = false) ∧
    evaluateCondition 8 "value < 10" = true ∧
    evaluateCondition 12 "value < 10" = false := by
  refine ⟨fun h₁ => ⟨fun hb => ?_, fun hb => ?_⟩,
          fun h₁ h₂ => ⟨fun hb => ?_, fun hb => ?_⟩,
          fun h₁ h₂ h₃ => ⟨fun hb => ?_, fun hb => ?_⟩,
          fun h₁ h₂ h₃ => ?_, ?_, ?_⟩
  · simp [evaluateCondition, h₁, hb]
  · simp [evaluateCondition, h₁, hb]
  · simp [evaluateCondition, h₁, h₂, hb]
  · simp [evaluateCondition, h₁, h₂, hb]
  · simp [evaluateCondition, h₁, h₂, h₃, hb]
  · simp [evaluateCondition, h₁, h₂, h₃, hb]
  · simp [evaluateCondition, h₁, h₂, h₃]
  · decide
  · decide

/-- Witness for C3 (amended), at the spec's own example: the `<` branch at
value 8, condition "value < 10", threshold 10. -/
theorem evaluate_condition_branches_witness :
    evaluateCondition 8 "value < 10" = decide ((8 : ℚ) < 10) :=
  ((evaluate_condition_branches 8 10 "value < 10").1 (by decide)).1 (by decide)

/-- C10: with fewer than 10 points, both the engine's anomaly pass and the
detector itself return the empty list — no anomaly alert can arise from a
short series, whatever the detection methods report elsewhere. -/
theorem detect_anomalies_short_series_empty (detector : DetectorMethod)
    (m₁ m₂ m₃ : DetectorMethod) (kvs : List KPIValueRow)
    (kd : KPIDefinitionRow) (values : List ℚ) (ts : List ℤ)
    (hk : kvs.length < 10) (hv : values.length < 10) :
    engine_detect_anomalies detector kvs kd = [] ∧
    detector_detect_anomalies m₁ m₂ m₃ values ts = [] := by
  constructor
  · simp [engine_detect_anomalies, hk]
  · simp [detector_detect_anomalies, hv]

/-- Witness for C10: a 3-point series produces no anomaly alerts even under
a detector that flags everything. -/
theorem detect_anomalies_short_series_empty_witness :
    engine_detect_anomalies
      (fun vs _ => vs.map fun v =>
        { atype := "z_score_outlier", score := 9, value := v,
          expected_lo := 0, expected_hi := 1, timestamp := 0 })
      [{ tenant_id := 1, kpi_id := 7, timestamp := 0, value := 1,
         provenance := { source_records := 0, calculation_method := "m" } },
       { tenant_id := 1, kpi_id := 7, timestamp := 1, value := 2,
         provenance := { source_records := 0, calculation_method := "m" } },
       { tenant_id := 1, kpi_id := 7, timestamp := 2, value := 300,
         provenance := { source_records := 0, calculation_method := "m" } }]
      tenantOneKpi = [] ∧
    detector_detect_anomalies (fun _ _ => []) (fun _ _ => []) (fun _ _ => [])
      [1, 2, 300] [0, 1, 2] = [] :=
  detect_anomalies_short_series_empty _ _ _ _ _ _ _ _ (by decide) (by decide)

/-- C6: when the (vertical, normalized name) pair has no formula entry,
`calculate_kpi` still returns a KPI value: its provenance marks the
"mock_generated" fallback and its numeric value is the mock generator's
output rather than a failure. -/
theorem calculate_kpi_fallback_mock_generated (kd : KPIDefinitionRow)
    (records : List NormalizedRecordRow) (s e : Option ℤ) (now : ℤ)
    (variation : ℚ)
    (hnf : dictGet? (dictGet kpi_formulas kd.vertical []) (normalizeKpiName kd.name)
      = none) :
    (calculate_kpi kd records s e now variation).provenance.calculation_method
      = "mock_generated" ∧
    (calculate_kpi kd records s e now variation).value
      = generate_mock_kpi_value (normalizeKpiName kd.name) kd.vertical variation := by
  constructor <;> simp [calculate_kpi, hnf]

/-- Witness for C6: the KPI "Lead Conversion Rate" under the vertical
"retail" has no formula entry, and its computed value carries the fallback
marker. -/
theorem calculate_kpi_fallback_mock_generated_witness :
    (calculate_kpi retailKpi [] none none 0 0).provenance.calculation_method
      = "mock_generated" ∧
    (calculate_kpi retailKpi [] none none 0 0).value
      = generate_mock_kpi_value (normalizeKpiName retailKpi.name)
          retailKpi.vertical 0 :=
  calculate_kpi_fallback_mock_generated retailKpi [] none none 0 0 (by decide)

/-- C5 (counterexample): `calculate_kpi` does not restrict to the window —
with a single record timestamped at 100 and the window `[0, 10)`, the
provenance reports 1 contributing source record although 0 records fall
inside the window. -/
theorem calculate_kpi_ignores_window_counterexample :
    (calculate_kpi retailKpi [lateRecord] (some 0) (some 10) 0 0).provenance.source_records = 1 ∧
    (records_in_window [lateRecord] 0 10).length = 0 ∧
    (calculate_kpi retailKpi [lateRecord] (some 0) (some 10) 0 0).provenance.source_records ≠
      (records_in_window [lateRecord] 0 10).length := by
  refine ⟨rfl, by decide, by decide⟩

/-- C5 (amended): `calculate_kpi` produces a single KPI value whose
provenance records the count of ALL records passed in — the window never
filters them (the result does not depend on `start_date` at all, and
`end_date` is used only as the value's timestamp) — and whose
`calculation_method` records the calculation path (formula-based when the
(vertical, normalized name) pair has a formula entry, mock fallback
otherwise). -/
theorem calculate_kpi_provenance_spec (kd : KPIDefinitionRow)
    (records : List NormalizedRecordRow) (s s' e : Option ℤ) (now : ℤ)
    (variation : ℚ) :
    (calculate_kpi kd records s e now variation).provenance.source_records
      = records.length ∧
    (calculate_kpi kd records s e now variation).timestamp = e.getD now ∧
    calculate_kpi kd records s e now variation
      = calculate_kpi kd records s' e now variation ∧
    (calculate_kpi kd records s e now variation).provenance.calculation_method
      = (if (dictGet? (dictGet kpi_formulas kd.vertical [])
              (normalizeKpiName kd.name)).isSome
         then "formula_based" else "mock_generated") :=
  ⟨rfl, rfl, rfl, rfl⟩

/-- C2: a caller whose home tenant differs from the asserted tenant receives
the 403 response on the cited tenant-scoped endpoints, with the store
untouched; the response is a constant — identical for every store, so in
particular identical whether or not the addressed alert or connector exists
— because the tenant gate runs before any lookup. -/
theorem tenant_mismatch_yields_forbidden (db db' : Store) (user : UserRow)
    (t alert_id connector_id : ℤ) (ack : Bool) (now : ℤ)
    (payloads : List (List CsvRow))
    (h : user.tenant_id ≠ t) :
    acknowledge_alert db user t alert_id ack now
      = (.forbidden "Access denied to this tenant", db) ∧
    sync_connector db user t connector_id payloads
      = (.forbidden "Access denied to this tenant", db) ∧
    (acknowledge_alert db user t alert_id ack now).1
      = (acknowledge_alert db' user t alert_id ack now).1 ∧
    (sync_connector db user t connector_id payloads).1
      = (sync_connector db' user t connector_id payloads).1 := by
  have hv : verify_tenant_access user t = false := by
    simp [verify_tenant_access, h]
  refine ⟨?_, ?_, ?_, ?_⟩ <;>
    simp [acknowledge_alert, sync_connector, hv]

/-- Witness for C2: a tenant-1 user asserting tenant 2 gets the same 403 on
an empty store and on a store where tenant 2's alert 1 and connector 1 both
exist. -/
theorem tenant_mismatch_yields_forbidden_witness :
    acknowledge_alert {} tenantOneUser 2 1 true 0
      = (.forbidden "Access denied to this tenant", {}) ∧
    sync_connector {} tenantOneUser 2 1 []
      = (.forbidden "Access denied to this tenant", {}) ∧
    (acknowledge_alert {} tenantOneUser 2 1 true 0).1
      = (acknowledge_alert tenantTwoStore tenantOneUser 2 1 true 0).1 ∧
    (sync_connector {} tenantOneUser 2 1 []).1
      = (sync_connector tenantTwoStore tenantOneUser 2 1 []).1 :=
  tenant_mismatch_yields_forbidden {} tenantTwoStore tenantOneUser 2 1 1 true 0 []
    (by decide)

/-- C7: registering with an email that already exists fails with the 400
validation error and returns the store unchanged — no tenant row and no user
row is created. -/
theorem register_duplicate_email_atomic (db : Store)
    (tenantName plan email password role : String) (hash : String → String)
    (hdup : (findFirst (fun u => u.email == email) db.users).isSome = true) :
    register db tenantName plan email password role hash
      = (.badRequest "Email already registered", db) := by
  obtain ⟨u, hu⟩ := Option.isSome_iff_exists.mp hdup
  simp [register, hu]

/-- Witness for C7: re-registering "dup@acme.test" on a store that already
holds that user leaves the store exactly as it was. -/
theorem register_duplicate_email_atomic_witness :
    register registeredStore "Other" "starter" "dup@acme.test" "pw" "owner"
        (fun p => p)
      = (.badRequest "Email already registered", registeredStore) :=
  register_duplicate_email_atomic registeredStore "Other" "starter"
    "dup@acme.test" "pw" "owner" (fun p => p) (by decide)


/-- C8: on an active alert, acknowledging and then unacknowledging leaves the
alert unacknowledged and still active (its `resolved_at` stays empty), and
`resolve` succeeds from any acknowledgement state, stamping the resolution
timestamp. -/
theorem ack_roundtrip_and_resolve (db : Store) (user : UserRow)
    (t i now₁ now₂ now₃ : ℤ) (a : AlertRow)
    (hfind : findFirst (alertScope i t) db.alerts = some a)
    (huser : user.tenant_id = t)
    (hactive : a.resolved_at = none) :
    (∃ a₂, findFirst (alertScope i t)
        ((acknowledge_alert (acknowledge_alert db user t i true now₁).2
            user t i false now₂).2).alerts = some a₂ ∧
      a₂.acknowledged = false ∧ a₂.resolved_at = none) ∧
    ((resolve_alert db user t i now₃).1 = .ok "resolved" ∧
      ∃ a₃, findFirst (alertScope i t)
          ((resolve_alert db user t i now₃).2).alerts = some a₃ ∧
        a₃.resolved_at = some now₃) := by
  have hv : verify_tenant_access user t = true := by
    simp [verify_tenant_access, huser]
  have h₁ := acknowledge_alert_found db user t i true now₁ a hv hfind
  have hfind₁ : findFirst (alertScope i t)
      (acknowledge_alert db user t i true now₁).2.alerts
      = some (ackUpdate user true now₁ a) := by
    rw [h₁, findFirst_updateFirst _ _ (alertScope_ackUpdate i t user true now₁),
      hfind]
    rfl
  have h₂ := acknowledge_alert_found (acknowledge_alert db user t i true now₁).2
    user t i false now₂ (ackUpdate user true now₁ a) hv hfind₁
  refine ⟨⟨ackUpdate user false now₂ (ackUpdate user true now₁ a), ?_, rfl, hactive⟩, ?_⟩
  · rw [h₂, findFirst_updateFirst _ _ (alertScope_ackUpdate i t user false now₂),
      hfind₁]
    rfl
  · have h₃ := resolve_alert_found db user t i now₃ a hv hfind
    refine ⟨h₃.1, resolveUpdate now₃ a, ?_, rfl⟩
    rw [h₃.2, findFirst_updateFirst _ _ (alertScope_resolveUpdate i t now₃), hfind]
    rfl

/-- Witness for C8: the round trip and the resolution on the concrete
one-alert store. -/
theorem ack_roundtrip_and_resolve_witness :
    (∃ a₂, findFirst (alertScope 1 1)
        ((acknowledge_alert (acknowledge_alert alertStore tenantOneUser 1 1 true 10).2
            tenantOneUser 1 1 false 20).2).alerts = some a₂ ∧
      a₂.acknowledged = false ∧ a₂.resolved_at = none) ∧
    ((resolve_alert alertStore tenantOneUser 1 1 30).1 = .ok "resolved" ∧
      ∃ a₃, findFirst (alertScope 1 1)
          ((resolve_alert alertStore tenantOneUser 1 1 30).2).alerts = some a₃ ∧
        a₃.resolved_at = some 30) :=
  ack_roundtrip_and_resolve alertStore tenantOneUser 1 1 10 20 30 activeAlert
    (by decide) (by decide) (by decide)

/-- C9: normalization is total and per-row — it returns exactly one
normalized record per input row — and a per-field transformation failure is
non-fatal: when the date oracle rejects a value the raw string is kept, and
when the numeric parse rejects a (currency-stripped) value the raw string is
kept. -/
theorem normalize_per_field_failure_nonfatal (pd : DateOracle)
    (raw : RawIngestRow) (mappings : List (String × String)) (t : ℤ) :
    (normalize_csv_data pd raw mappings t).length = raw.data.length ∧
    (∀ v dt : String, v ≠ "" → dt ≠ "email" → dt ≠ "source" →
      (containsSub dt "date" = true ∨ containsSub dt "time" = true) →
      pd v = none → apply_transformation pd v dt = .vStr v) ∧
    (∀ v nt : String, v ≠ "" →
      (nt = "value" ∨ nt = "cost" ∨ nt = "budget" ∨ nt = "amount") →
      pyFloat? (stripCurrency v) = none →
      apply_transformation pd v nt = .vStr v) := by
  refine ⟨?_, ?_, ?_⟩
  · simp [normalize_csv_data]
  · intro v dt hv h₁ h₂ hdt hpd
    rcases hdt with h | h <;> simp [apply_transformation, hv, h₁, h₂, h, hpd]
  · intro v nt hv hnt hpf
    have d₁ : containsSub "value" "date" = false := by decide
    have d₂ : containsSub "value" "time" = false := by decide
    have d₃ : containsSub "cost" "date" = false := by decide
    have d₄ : containsSub "cost" "time" = false := by decide
    have d₅ : containsSub "budget" "date" = false := by decide
    have d₆ : containsSub "budget" "time" = false := by decide
    have d₇ : containsSub "amount" "date" = false := by decide
    have d₈ : containsSub "amount" "time" = false := by decide
    rcases hnt with h | h | h | h <;> subst h <;>
      simp [apply_transformation, hv, hpf, d₁, d₂, d₃, d₄, d₅, d₆, d₇, d₈]

/-- Witness for C9: a three-row raw ingest yields three normalized records,
and the failing date and numeric transformations keep the raw strings
"not-a-date" and "n/a". -/
theorem normalize_per_field_failure_nonfatal_witness :
    (normalize_csv_data (fun _ => none)
      { id := 1, tenant_id := 1, connector_id := 3,
        data := [[("email", "A@B.c")], [("visit_date", "not-a-date")],
                 [("cost", "n/a")]],
        record_count := 3 }
      [("email", "email"), ("visit_date", "visit_date"), ("cost", "cost")]
      1).length = 3 ∧
    apply_transformation (fun _ => none) "not-a-date" "visit_date"
      = .vStr "not-a-date" ∧
    apply_transformation (fun _ => none) "n/a" "cost" = .vStr "n/a" := by
  refine ⟨?_, ?_, ?_⟩
  · exact (normalize_per_field_failure_nonfatal (fun _ => none) _ _ 1).1
  · exact (normalize_per_field_failure_nonfatal (fun _ => none)
      { id := 1, tenant_id := 1, connector_id := 3, data := [], record_count := 0 }
      [] 1).2.1 "not-a-date" "visit_date" (by decide) (by decide) (by decide)
      (Or.inl (by decide)) rfl
  · exact (normalize_per_field_failure_nonfatal (fun _ => none)
      { id := 1, tenant_id := 1, connector_id := 3, data := [], record_count := 0 }
      [] 1).2.2 "n/a" "cost" (by decide) (Or.inr (Or.inl rfl)) (by decide)

/-- C4: the 10 MB limit exists only in `validate_csv_file`, which no code
path invokes — an over-limit payload that `validate_csv_file` would reject
as too large is nevertheless parsed, accepted and stored by the upload
endpoint, while a payload that fails to parse is rejected (as a 500 wrapping
the parse error, since the endpoint's own 400 is swallowed by its
`except Exception` arm) and stores nothing. -/
theorem upload_size_limit_unenforced (max_file_size : ℕ)
    (content badContent : FileBytes) (config : CsvConfig) (db : Store)
    (user : UserRow) (t cid : ℤ) (llm : LlmOracle) (fn : String)
    (connector : ConnectorRow)
    (hsize : content.len > max_file_size)
    (huser : user.tenant_id = t)
    (hconn : findFirst (fun c => c.id == cid && c.tenant_id == t) db.connectors
      = some connector)
    (hcsv : connector.ctype = "csv")
    (hparse : (process_csv_upload llm content connector).success = true)
    (hbad : (process_csv_upload llm badContent connector).success = false) :
    validate_csv_file max_file_size content config = .invalid "File too large" ∧
    (upload_csv db user t cid llm content fn).1
      = .ok { message := "CSV uploaded successfully",
              mapping_suggestions :=
                (process_csv_upload llm content connector).mapping_suggestions,
              raw_ingest_id := db.next_raw_ingest_id } ∧
    (upload_csv db user t cid llm content fn).2.raw_ingests
      = db.raw_ingests ++
        [{ id := db.next_raw_ingest_id, tenant_id := t, connector_id := cid,
           data := (process_csv_upload llm content connector).sample_data,
           record_count := (process_csv_upload llm content connector).records_processed,
           file_name := some fn, file_size := some content.len }] ∧
    (upload_csv db user t cid llm badContent fn).1
      = .serverError ("CSV upload failed: " ++
          (process_csv_upload llm badContent connector).error.getD "") ∧
    (upload_csv db user t cid llm badContent fn).2 = db := by
  have hv : verify_tenant_access user t = true := by
    simp [verify_tenant_access, huser]
  refine ⟨?_, ?_, ?_, ?_, ?_⟩
  · simp [validate_csv_file, hsize]
  · simp [upload_csv, hv, hconn, hcsv, hparse]
  · simp [upload_csv, hv, hconn, hcsv, hparse]
  · simp [upload_csv, hv, hconn, hcsv, hbad]
  · simp [upload_csv, hv, hconn, hcsv, hbad]

/-- Witness for C4, scaled to a 10-byte limit: the 11-byte payload
"email\na@b.c" over-runs the limit yet uploads successfully, and the
undecodable payload is turned away with the wrapped 500. -/
theorem upload_size_limit_unenforced_witness :
    validate_csv_file 10 oversizePayload {} = .invalid "File too large" ∧
    (upload_csv csvStore tenantOneUser 1 3 noSuggestions oversizePayload "a.csv").1
      = .ok { message := "CSV uploaded successfully",
              mapping_suggestions :=
                (process_csv_upload noSuggestions oversizePayload csvConnector).mapping_suggestions,
              raw_ingest_id := csvStore.next_raw_ingest_id } ∧
    (upload_csv csvStore tenantOneUser 1 3 noSuggestions oversizePayload "a.csv").2.raw_ingests
      = csvStore.raw_ingests ++
        [{ id := csvStore.next_raw_ingest_id, tenant_id := 1, connector_id := 3,
           data := (process_csv_upload noSuggestions oversizePayload csvConnector).sample_data,
           record_count := (process_csv_upload noSuggestions oversizePayload csvConnector).records_processed,
           file_name := some "a.csv", file_size := some oversizePayload.len }] ∧
    (upload_csv csvStore tenantOneUser 1 3 noSuggestions undecodablePayload "a.csv").1
      = .serverError ("CSV upload failed: " ++
          (process_csv_upload noSuggestions undecodablePayload csvConnector).error.getD "") ∧
    (upload_csv csvStore tenantOneUser 1 3 noSuggestions undecodablePayload "a.csv").2
      = csvStore :=
  upload_size_limit_unenforced 10 oversizePayload undecodablePayload {} csvStore
    tenantOneUser 1 3 noSuggestions "a.csv" csvConnector (by decide) (by decide)
    (by decide) (by decide) (by decide) (by decide)

/-- C1: a read path that does not filter by the tenant — the dashboard's
latest-KPI-value query is scoped by `kpi_id` alone, so on a store where the
only value row for tenant 1's KPI 7 belongs to tenant 2, the dashboard of
tenant 1 reads and renders that foreign row; every other modelled read path
and `dashboard_kpi_rows_read`'s own KPI-definition query do filter by
tenant. -/
theorem dashboard_reads_cross_tenant_value :
    dashboard_kpi_rows_read dashboardStore 1 = [crossTenantValue] ∧
    crossTenantValue.tenant_id = 2 ∧
    ¬ (∀ kv ∈ dashboard_kpi_rows_read dashboardStore 1, kv.tenant_id = 1) := by
  refine ⟨?_, rfl, ?_⟩
  · rfl
  · intro h
    exact absurd (h crossTenantValue (by rw [show dashboard_kpi_rows_read dashboardStore 1 = [crossTenantValue] from rfl]; exact List.mem_singleton.mpr rfl)) (by decide)

end Base44
